import Mathlib

/-!
Verification development for the MultiModalDocSystem frontend core:
the task-progress poller (ProcessStatusMonitor component) and the
RAG segment-collection editor (RAGResultEditor component).

The TypeScript/Vue components are embedded shallowly: each reactive
ref becomes a field of an explicit state record, each handler becomes a
pure function from state (plus the external inputs it reads) to state,
and each `emit(...)` is recorded in an explicit event list.  Network
fetches are modelled by a list of outstanding requests tagged with the
job id they were issued for; a response is delivered by an explicit
`respond`/`respondError` step.  JS truthiness on strings (`x || d`)
is modelled by `jsOr`; `undefined` fields by `Option`.
-/

namespace DocSystem

/-- JS `x || d` for an optional string: `undefined` and `""` are falsy. -/
def jsOr (o : Option String) (d : String) : String :=
  match o with
  | none => d
  | some s => if s = "" then d else s

/-! ## Status payload and pure projections (ProcessStatusMonitor)

`ProcessStatus` as consumed by the component: only `status` and the
optional `progress` drive control decisions; `message`, `task_id`,
timestamps are advisory display fields and are omitted from the model.
`progress` is a JS number; the component only compares it with 100 via
`Math.min`, so it is embedded as `Int`. -/

structure StatusPayload where
  status : String
  progress : Option Int
  deriving DecidableEq, Repr

/-- `currentStatus = statusInfo.value?.status || 'pending'` (part_002 line 625). -/
def currentStatus (statusInfo : Option StatusPayload) : String :=
  match statusInfo with
  | none => "pending"
  | some s => if s.status = "" then "pending" else s.status

/-- The `statusToStep` record literal inside `currentStep` (part_002 lines 634-643). -/
def statusToStep (st : String) : Option String :=
  if st = "pending" then some "pending"
  else if st = "uploading" then some "uploading"
  else if st = "processing" then some "processing_ocr"
  else if st = "processing_ocr" then some "processing_ocr"
  else if st = "cleaning" then some "cleaning"
  else if st = "processing_rag" then some "processing_rag"
  else if st = "completed" then some "completed"
  else if st = "failed" then some "failed"
  else none

/-- `currentStep = statusToStep[status] || 'pending'` (part_002 lines 630-646).
All values in the table are non-empty strings, so `||` is `getD`. -/
def currentStep (statusInfo : Option StatusPayload) : String :=
  (statusToStep (currentStatus statusInfo)).getD "pending"

/-- The `statusProgress` record literal inside `displayProgress`
(part_002 lines 658-666); a missing key reads as `undefined`. -/
def statusProgress (st : String) : Option Int :=
  if st = "pending" then some 0
  else if st = "uploading" then some 20
  else if st = "processing_ocr" then some 40
  else if st = "cleaning" then some 60
  else if st = "processing_rag" then some 80
  else if st = "completed" then some 100
  else if st = "failed" then some 100
  else none

/-- `displayProgress` (part_002 lines 649-669): 0 with no payload;
`Math.min(progress, 100)` when `progress !== undefined`; otherwise
`statusProgress[currentStatus] || 0` (the only falsy table value is 0
itself, so `|| 0` coincides with `getD 0`). -/
def displayProgress (statusInfo : Option StatusPayload) : Int :=
  match statusInfo with
  | none => 0
  | some s =>
    match s.progress with
    | some p => min p 100
    | none => (statusProgress (currentStatus statusInfo)).getD 0

/-- Clamping to the interval [0,100] as the spec words it, for comparison
with the source's `displayProgress`. -/
def specClampedProgress (p : Int) : Int := max 0 (min p 100)

/-! ## Poller state machine (ProcessStatusMonitor)

Reactive refs of the component become `PollerState`; `props.taskId` and
the outstanding fetches live in the surrounding `Sys` record together
with the accumulated emitted events.  `applied` is ghost
instrumentation: every status payload the handler applies, tagged with
the job id the producing request was issued for — it lets temporal
claims about stale responses be stated, and no modelled operation
branches on it. -/

inductive PollerEvent where
  | statusUpdate (s : StatusPayload)
  | pollingStart
  | pollingStop
  | taskCompleted (s : StatusPayload)
  | taskFailed (s : StatusPayload)
  deriving DecidableEq, Repr

structure PollerState where
  statusInfo : Option StatusPayload
  errorMessage : String
  isPolling : Bool
  /-- `some _` iff a re-poll timeout is pending (the stored JS timer id
  carries no information once the timeout has fired or been cleared). -/
  pollTimer : Option Nat
  startTime : Nat
  deriving DecidableEq, Repr

structure Sys where
  /-- `props.taskId` (default `''`). -/
  taskId : String
  /-- `props.autoPoll` (default `true`); read by `initPolling`. -/
  autoPoll : Bool
  ps : PollerState
  /-- Job ids of the outstanding `getProcessStatus` fetches, oldest first
  (each fetch is tagged with the `props.taskId` read when it was issued). -/
  inFlight : List String
  /-- Every `emit(...)` so far, oldest first. -/
  events : List PollerEvent
  /-- Ghost: applied status payloads tagged with the issuing request's job id. -/
  applied : List (String × StatusPayload)
  deriving DecidableEq, Repr

/-- Initial component state (refs at part_002 lines 607-611, props defaults
at lines 589-595). -/
def sysInit : Sys :=
  { taskId := "", autoPoll := true
    ps := { statusInfo := none, errorMessage := "", isPolling := false
            pollTimer := none, startTime := 0 }
    inFlight := [], events := [], applied := [] }

/-- `stopPolling` (part_002 lines 713-720): clear `isPolling`, clear the
pending timer, emit `polling-stop` — unconditionally. -/
def stopPolling (s : Sys) : Sys :=
  { s with ps := { s.ps with isPolling := false, pollTimer := none }
           events := s.events ++ [PollerEvent.pollingStop] }

/-- The body of `poll()` up to the `await`: issue `getProcessStatus(props.taskId!)`,
tagging the request with the `taskId` read at issue time. -/
def issueFetch (s : Sys) : Sys :=
  { s with inFlight := s.inFlight ++ [s.taskId] }

/-- `startPolling` (part_002 lines 737-780): no-op when `taskId` is empty
or a session is already active; otherwise set `isPolling`, clear the error,
reset `startTime`, emit `polling-start` and call `poll()` immediately. -/
def startPolling (now : Nat) (s : Sys) : Sys :=
  if s.taskId = "" ∨ s.ps.isPolling then s
  else
    issueFetch
      { s with ps := { s.ps with isPolling := true, errorMessage := "", startTime := now }
               events := s.events ++ [PollerEvent.pollingStart] }

/-- `initPolling` (part_002 lines 786-790). -/
def initPolling (now : Nat) (s : Sys) : Sys :=
  if s.taskId ≠ "" ∧ s.autoPoll then startPolling now s else s

/-- One run of the `watch(() => props.taskId)` handler (part_002
lines 725-733 and, duplicated verbatim, lines 793-800). -/
def watchTaskIdHandler (now : Nat) (s : Sys) : Sys :=
  if s.taskId ≠ "" then initPolling now s
  else
    let s' := stopPolling s
    { s' with ps := { s'.ps with statusInfo := none } }

/-- The externally supplied job id changes: both registered (identical)
watchers fire in order. -/
def setTaskId (newId : String) (now : Nat) (s : Sys) : Sys :=
  watchTaskIdHandler now (watchTaskIdHandler now { s with taskId := newId })

/-- The success path of `poll` (part_002 lines 749-771): the oldest
outstanding fetch resolves with `payload`.  The handler stores it and
emits `status-update` unconditionally, then branches: `completed` →
`stopPolling` + `task-completed`; `failed` → `stopPolling` +
`task-failed`; otherwise, if still polling, schedule one re-poll. -/
def respond (payload : StatusPayload) (s : Sys) : Sys :=
  match s.inFlight with
  | [] => s
  | j :: rest =>
    let s1 : Sys :=
      { s with inFlight := rest
               ps := { s.ps with statusInfo := some payload }
               events := s.events ++ [PollerEvent.statusUpdate payload]
               applied := s.applied ++ [(j, payload)] }
    if payload.status = "completed" then
      let s2 := stopPolling s1
      { s2 with events := s2.events ++ [PollerEvent.taskCompleted payload] }
    else if payload.status = "failed" then
      let s2 := stopPolling s1
      { s2 with events := s2.events ++ [PollerEvent.taskFailed payload] }
    else if s1.ps.isPolling then
      { s1 with ps := { s1.ps with pollTimer := some 1 } }
    else s1

/-- The catch branch of `poll` (part_002 lines 772-776): the oldest
outstanding fetch rejects with `msg`.  `error.message || '获取状态失败'`
is recorded, then `stopPolling()`; nothing is rescheduled. -/
def respondError (msg : String) (s : Sys) : Sys :=
  match s.inFlight with
  | [] => s
  | _ :: rest =>
    stopPolling
      { s with inFlight := rest
               ps := { s.ps with errorMessage := jsOr (some msg) "获取状态失败" } }

/-- The scheduled timeout fires: the pending `poll` runs, issuing a fetch
with the `taskId` read at that moment. -/
def timerFire (s : Sys) : Sys :=
  match s.ps.pollTimer with
  | none => s
  | some _ => issueFetch { s with ps := { s.ps with pollTimer := none } }

/-- Is an event a `task-completed` emission? -/
def isCompletedEvent : PollerEvent → Bool
  | PollerEvent.taskCompleted _ => true
  | _ => false

/-- Is an event a `task-failed` emission? -/
def isFailedEvent : PollerEvent → Bool
  | PollerEvent.taskFailed _ => true
  | _ => false

/-! ## Segment collection editor (RAGResultEditor)

`RAGSegment` as the component builds and consumes it (part_000: `id`,
`fileId`, `content`, `chunkIndex`; the `metadata` bag is carried through
unchanged by every modelled operation and inspected by no claim, so only
its display-irrelevant presence is dropped). -/

structure RAGSegment where
  id : String
  fileId : String
  content : String
  chunkIndex : Nat
  deriving DecidableEq, Repr

structure EditorProps where
  segments : List RAGSegment
  /-- `props.ragContent?: string`. -/
  ragContent : Option String
  deriving DecidableEq, Repr

inductive EditorEvent where
  | segmentsUpdate (segs : List RAGSegment)
  | ragStart
  | ragSuccess (segs : List RAGSegment)
  | ragError (e : String)
  | exportRequest
  deriving DecidableEq, Repr

structure EditorState where
  editedSegments : List RAGSegment
  editingSegmentId : String
  selectedSegments : List String
  isProcessing : Bool
  processingProgress : Int
  processingMessage : String
  showResultMessage : Bool
  resultMessageType : String
  deriving DecidableEq, Repr

/-- Initial refs (part_000 lines 170-178). -/
def editorInit : EditorState :=
  { editedSegments := [], editingSegmentId := "", selectedSegments := []
    isProcessing := false, processingProgress := 0, processingMessage := ""
    showResultMessage := false, resultMessageType := "info" }

/-- `JSON.parse(JSON.stringify(segments))`: on these plain records the
round trip is value identity; what it buys in JS is breaking aliasing,
which has no counterpart on immutable Lean values. -/
def jsonDeepCopy (segs : List RAGSegment) : List RAGSegment := segs

/-- The `watch(() => props.segments)` handler (part_000 lines 189-191):
the working collection becomes a deep copy of the new input.
No other ref is touched. -/
def replaceAll (newSegments : List RAGSegment) (st : EditorState) : EditorState :=
  { st with editedSegments := jsonDeepCopy newSegments }

/-- `mergeSegments` (part_000 lines 243-247): the body is a
`console.log` and a comment — it mutates nothing and emits nothing. -/
def mergeSegments (st : EditorState) : EditorState := st

/-- What the spec's `mergeSelected(ids)` contract describes, for
comparison with the source's `mergeSegments`: concatenate the selected
segments' `content` in collection order into the first selected segment
(by collection order) and remove the other selected ones. -/
def specMergeSelected (ids : List String) (segs : List RAGSegment) : List RAGSegment :=
  let sel := segs.filter (fun s => s.id ∈ ids)
  match sel with
  | [] => segs
  | first :: _ =>
    if sel.length < 2 then segs
    else
      (segs.filter (fun s => s.id ∉ ids ∨ s.id = first.id)).map
        (fun s =>
          if s.id = first.id then
            { s with content := String.join (sel.map (fun t => t.content)) }
          else s)

/-- The raw objects of a `processRAG` response as the mapper reads them
(part_000 lines 293-309): `seg.id`, `seg.content`, `seg.text` may each
be absent. -/
structure RawSeg where
  id : Option String
  content : Option String
  text : Option String
  deriving DecidableEq, Repr

/-- One element of the `segments.map((seg, index) => ...)` formatter
(part_000 lines 297-306): `seg.id || 'rag-NOW-INDEX'`,
`props.segments[0]?.fileId || ''`, `seg.content || seg.text || ''`,
`chunkIndex := index`. -/
def formatSegment (props : EditorProps) (now idx : Nat) (seg : RawSeg) : RAGSegment :=
  { id := jsOr seg.id ("rag-" ++ toString now ++ "-" ++ toString idx)
    fileId := jsOr ((props.segments.head?).map (fun s => s.fileId)) ""
    content := jsOr seg.content (jsOr seg.text "")
    chunkIndex := idx }

/-- Outcome of the awaited `processRAG(request)` call. -/
inductive RAGOutcome where
  | ok (segs : List RawSeg)
  | err (e : String)
  deriving DecidableEq, Repr

/-- `processRAGContent` (part_000 lines 249-355), with the awaited call's
outcome passed in.  Returns the new state, the emissions in order, and
whether a request was issued.  Guard: return immediately when
`!props.ragContent` (absent or empty) or `isProcessing`.  Success path:
format the response, replace the collection, emit `rag-success` and
`segments-update` (the 2-second delayed reset of `isProcessing` is a
separate timer not modelled, as no claim touches it).  Catch path: the
collection is untouched, `rag-error` carries the error, processing state
is reset. -/
def processRAGContent (props : EditorProps) (outcome : RAGOutcome) (now : Nat)
    (st : EditorState) : EditorState × List EditorEvent × Bool :=
  if jsOr props.ragContent "" = "" ∨ st.isProcessing then (st, [], false)
  else
    let st1 : EditorState :=
      { st with isProcessing := true, processingProgress := 50
                processingMessage := "正在处理分段...", showResultMessage := false }
    match outcome with
    | RAGOutcome.ok raw =>
      let formatted := raw.enum.map (fun p => formatSegment props now p.1 p.2)
      ({ st1 with editedSegments := formatted, processingProgress := 100
                  processingMessage := "RAG处理完成！", showResultMessage := true
                  resultMessageType := "success" },
       [EditorEvent.ragStart, EditorEvent.ragSuccess formatted,
        EditorEvent.segmentsUpdate formatted], true)
    | RAGOutcome.err e =>
      ({ st1 with processingMessage := "处理失败", showResultMessage := true
                  resultMessageType := "error", isProcessing := false
                  processingProgress := 0 },
       [EditorEvent.ragStart, EditorEvent.ragError e], true)

/-! ## Concrete scenario states -/

/-- A two-segment collection with both ids selected, ready for a merge. -/
def mergeScenarioState : EditorState :=
  { editorInit with
      editedSegments := [{ id := "a", fileId := "f", content := "x", chunkIndex := 0 },
                         { id := "b", fileId := "f", content := "y", chunkIndex := 1 }]
      selectedSegments := ["a", "b"] }

/-- Poller after a job id `"job-1"` is supplied: session active, one fetch
outstanding tagged `"job-1"`. -/
def pollerJob1 : Sys := setTaskId "job-1" 0 sysInit

/-- The externally supplied job id then switches to `"job-2"` while that
fetch is still in flight. -/
def pollerSwitched : Sys := setTaskId "job-2" 1 pollerJob1

/-- An intermediate status payload of the old job. -/
def ocrPayload : StatusPayload := { status := "processing_ocr", progress := none }

/-- The stale response (produced by the `"job-1"`-tagged request) arrives
after the switch. -/
def pollerAfterStale : Sys := respond ocrPayload pollerSwitched

/-- Scenario of spec §8: job `"job-1"` answers `processing_ocr`, the
re-poll timer fires, and the next fetch is outstanding. -/
def pollerMidSession : Sys := timerFire (respond ocrPayload pollerJob1)

/-- Everything claim C5 asserts about delivering a terminal response to a
session with exactly one outstanding fetch: `pc` is the `completed`
payload with no progress field, `pf` any `failed` payload. -/
def terminalPost (s : Sys) (pf : StatusPayload) : Prop :=
  (respond { status := "completed", progress := none } s).events =
      s.events ++ [PollerEvent.statusUpdate { status := "completed", progress := none },
                   PollerEvent.pollingStop,
                   PollerEvent.taskCompleted { status := "completed", progress := none }]
  ∧ (s.events.countP isCompletedEvent = 0 →
      (respond { status := "completed", progress := none } s).events.countP isCompletedEvent = 1)
  ∧ (respond { status := "completed", progress := none } s).ps.pollTimer = none
  ∧ (respond { status := "completed", progress := none } s).ps.isPolling = false
  ∧ (respond { status := "completed", progress := none } s).inFlight = []
  ∧ displayProgress (respond { status := "completed", progress := none } s).ps.statusInfo = 100
  ∧ timerFire (respond { status := "completed", progress := none } s) =
      respond { status := "completed", progress := none } s
  ∧ (∀ r : StatusPayload,
      respond r (respond { status := "completed", progress := none } s) =
        respond { status := "completed", progress := none } s)
  ∧ (respond pf s).events =
      s.events ++ [PollerEvent.statusUpdate pf, PollerEvent.pollingStop,
                   PollerEvent.taskFailed pf]
  ∧ (respond pf s).ps.isPolling = false
  ∧ (respond pf s).ps.pollTimer = none
  ∧ (respond pf s).inFlight = []
  ∧ (respond pf s).ps.errorMessage = s.ps.errorMessage
  ∧ (∀ m : String, (respondError m s).events = s.events ++ [PollerEvent.pollingStop])

/-- The happy-path status sequence of spec property P3. -/
def happyStatuses : List String :=
  ["pending", "uploading", "processing_ocr", "cleaning", "processing_rag", "completed"]

/-! ## Claims -/

/-- C1: the spec's `mergeSelected` contract says merging the two selected
segments concatenates their contents into the first (collection order) and
shrinks the collection by one; the shipped `mergeSegments` is a stub that
only logs, so the state is returned untouched while the spec-described
merge of the same input would yield the one-segment collection. -/
theorem mergeSegments_is_stub :
    mergeSegments mergeScenarioState = mergeScenarioState
    ∧ (mergeSegments mergeScenarioState).editedSegments.length = 2
    ∧ specMergeSelected ["a", "b"] mergeScenarioState.editedSegments =
        [{ id := "a", fileId := "f", content := "xy", chunkIndex := 0 }]
    ∧ (specMergeSelected ["a", "b"] mergeScenarioState.editedSegments).length =
        mergeScenarioState.editedSegments.length - 1 := by
  decide

/-- C2: after the externally supplied job id switches from `"job-1"` to
`"job-2"` while a fetch tagged `"job-1"` is in flight, the watch handler
performs neither a halt nor a fresh begin (events unchanged), and the
stale `"job-1"` response is then applied to displayed state and emitted —
contradicting the claim that the old session is halted first and that no
old-job update is ever observed after the switch. -/
theorem stale_update_applied_after_switch :
    pollerSwitched.taskId = "job-2"
    ∧ pollerSwitched.inFlight = ["job-1"]
    ∧ pollerSwitched.applied = []
    ∧ pollerSwitched.events = pollerJob1.events
    ∧ pollerAfterStale.applied = [("job-1", ocrPayload)]
    ∧ pollerAfterStale.ps.statusInfo = some ocrPayload
    ∧ pollerAfterStale.events = pollerJob1.events ++ [PollerEvent.statusUpdate ocrPayload] := by
  decide

/-- C3 counterexample: `halt()` on a poller that never began is not
event-free — it emits a `polling-stop` event, and a second call emits
another one. -/
theorem stopPolling_emits_on_idle :
    (stopPolling sysInit).events = [PollerEvent.pollingStop]
    ∧ (stopPolling (stopPolling sysInit)).events =
        [PollerEvent.pollingStop, PollerEvent.pollingStop]
    ∧ (stopPolling sysInit).events ≠ [] := by
  decide

/-- C3 (amended): `halt()` is idempotent on poller state — after any call
`isPolling` is false and no timer is pending, a second call leaves the
poller state identical, and displayed status, error message and
outstanding fetches are untouched — but every call, including on a poller
that never began, emits one `polling-stop` event. -/
theorem stopPolling_idempotent_state (s : Sys) :
    (stopPolling (stopPolling s)).ps = (stopPolling s).ps
    ∧ (stopPolling s).ps.isPolling = false
    ∧ (stopPolling s).ps.pollTimer = none
    ∧ (stopPolling s).ps.statusInfo = s.ps.statusInfo
    ∧ (stopPolling s).ps.errorMessage = s.ps.errorMessage
    ∧ (stopPolling s).inFlight = s.inFlight
    ∧ (stopPolling s).events = s.events ++ [PollerEvent.pollingStop]
    ∧ (stopPolling (stopPolling s)).events =
        s.events ++ [PollerEvent.pollingStop, PollerEvent.pollingStop] := by
  simp [stopPolling]

/-- C4: a transport error on a status fetch records the error message
(with the source's fallback text for a blank message), halts the session
(`isPolling` cleared, pending timer cleared, `polling-stop` emitted),
consumes the outstanding fetch, and schedules no further poll. -/
theorem fetch_error_is_terminal (s : Sys) (j : String) (rest : List String) (msg : String)
    (h : s.inFlight = j :: rest) :
    (respondError msg s).ps.errorMessage = jsOr (some msg) "获取状态失败"
    ∧ (respondError msg s).ps.isPolling = false
    ∧ (respondError msg s).ps.pollTimer = none
    ∧ (respondError msg s).events = s.events ++ [PollerEvent.pollingStop]
    ∧ (respondError msg s).inFlight = rest := by
  simp [respondError, stopPolling, h]

/-- Witness for C4 at the session started for `"job-1"` and the message
`"boom"`. -/
theorem fetch_error_is_terminal_witness :
    pollerJob1.inFlight = "job-1" :: []
    ∧ ((respondError "boom" pollerJob1).ps.errorMessage = jsOr (some "boom") "获取状态失败"
       ∧ (respondError "boom" pollerJob1).ps.isPolling = false
       ∧ (respondError "boom" pollerJob1).ps.pollTimer = none
       ∧ (respondError "boom" pollerJob1).events =
           pollerJob1.events ++ [PollerEvent.pollingStop]
       ∧ (respondError "boom" pollerJob1).inFlight = []) :=
  ⟨by decide, fetch_error_is_terminal pollerJob1 "job-1" [] "boom" (by decide)⟩

/-- C5: delivering a `completed` response (no progress field) to a session
with exactly one outstanding fetch emits `status-update`, `polling-stop`
and exactly one `task-completed`, leaves no pending timer, no outstanding
fetch and a halted session from which neither a timer fire nor a further
response changes anything, and the derived progress is 100; a `failed`
response analogously halts and emits one `task-failed`, leaving the error
message untouched, while the transport-error path emits no such event. -/
theorem terminal_response_halts (s : Sys) (j : String) (pf : StatusPayload)
    (hin : s.inFlight = [j]) (hf : pf.status = "failed") :
    terminalPost s pf := by
  obtain ⟨tid, ap, ps0, infl, ev, appl⟩ := s
  simp only at hin
  subst hin
  unfold terminalPost
  simp [respond, respondError, stopPolling, timerFire, displayProgress, currentStatus,
        statusProgress, isCompletedEvent, hf, List.countP_append, List.countP_cons]

/-- Witness for C5 at the mid-session state of the spec scenario
(job `"job-1"`, `processing_ocr` already applied, next fetch outstanding)
and the failed payload `{status := "failed"}`. -/
theorem terminal_response_halts_witness :
    pollerMidSession.inFlight = ["job-1"]
    ∧ ({ status := "failed", progress := none } : StatusPayload).status = "failed"
    ∧ terminalPost pollerMidSession { status := "failed", progress := none } :=
  ⟨by decide, by decide,
   terminal_response_halts pollerMidSession "job-1" { status := "failed", progress := none }
     (by decide) (by decide)⟩

/-- C6 counterexample: with `progress = -5` present, the derived
percentage is `-5`, not the claim's clamp-to-[0,100] value `0` — the
source clamps only from above via `Math.min(progress, 100)`. -/
theorem displayProgress_not_clamped_below :
    displayProgress (some { status := "uploading", progress := some (-5) }) = -5
    ∧ displayProgress (some { status := "uploading", progress := some (-5) }) ≠
        specClampedProgress (-5) := by
  decide

/-- C6 (amended): when the numeric progress field is present, the derived
percentage is `min progress 100` — clamped above at 100 only; values below
0 pass through verbatim — and when it is absent the percentage comes from
the static table pending=0, uploading=20, processing_ocr=40, cleaning=60,
processing_rag=80, completed=100, failed=100. -/
theorem displayProgress_amended (st : String) (p : Int) :
    displayProgress (some { status := st, progress := some p }) = min p 100
    ∧ displayProgress (some { status := "pending", progress := none }) = 0
    ∧ displayProgress (some { status := "uploading", progress := none }) = 20
    ∧ displayProgress (some { status := "processing_ocr", progress := none }) = 40
    ∧ displayProgress (some { status := "cleaning", progress := none }) = 60
    ∧ displayProgress (some { status := "processing_rag", progress := none }) = 80
    ∧ displayProgress (some { status := "completed", progress := none }) = 100
    ∧ displayProgress (some { status := "failed", progress := none }) = 100 :=
  ⟨rfl, by decide⟩

/-- C7 counterexample: accepting a fresh segments input while segment
`"a"` is in edit mode leaves the edit mode in place — the watch handler
never clears `editingSegmentId`. -/
theorem replaceAll_keeps_edit_mode_concrete :
    (replaceAll [{ id := "b", fileId := "f", content := "y", chunkIndex := 0 }]
        { editorInit with editingSegmentId := "a" }).editingSegmentId = "a"
    ∧ (replaceAll [{ id := "b", fileId := "f", content := "y", chunkIndex := 0 }]
        { editorInit with editingSegmentId := "a" }).editingSegmentId ≠ "" := by
  decide

/-- C7 (amended): every acceptance of a new segments input replaces the
working collection with a value-equal deep copy of the input, and leaves
the in-progress per-segment edit mode (and every other editor ref)
unchanged rather than clearing it. -/
theorem replaceAll_amended (st : EditorState) (segs : List RAGSegment) :
    (replaceAll segs st).editedSegments = segs
    ∧ (replaceAll segs st).editingSegmentId = st.editingSegmentId
    ∧ (replaceAll segs st).selectedSegments = st.selectedSegments
    ∧ (replaceAll segs st).isProcessing = st.isProcessing :=
  ⟨rfl, rfl, rfl, rfl⟩

/-- C8: a segmentation call with absent/empty source text or with a run
already in progress is a silent no-op — state unchanged, no emission, no
request issued; a call whose request fails leaves the working collection
unchanged, emits `rag-start` then a `rag-error` carrying the underlying
error, and did issue exactly the one request. -/
theorem segmentation_failure_atomic (props : EditorProps) (st : EditorState)
    (outcome : RAGOutcome) (e : String) (now : Nat) :
    ((jsOr props.ragContent "" = "" ∨ st.isProcessing = true) →
        processRAGContent props outcome now st = (st, [], false))
    ∧ (jsOr props.ragContent "" ≠ "" → st.isProcessing = false →
        ((processRAGContent props (RAGOutcome.err e) now st).1.editedSegments =
            st.editedSegments
         ∧ (processRAGContent props (RAGOutcome.err e) now st).2.1 =
             [EditorEvent.ragStart, EditorEvent.ragError e]
         ∧ (processRAGContent props (RAGOutcome.err e) now st).2.2 = true)) := by
  constructor
  · intro h
    simp [processRAGContent, h]
  · intro h1 h2
    simp [processRAGContent, h1, h2]

/-- Witness for C8: the guard part at a props record with no source text,
and the failure part at source text `"hello"`, error `"network"`, from the
initial editor state. -/
theorem segmentation_failure_atomic_witness :
    (processRAGContent { segments := [], ragContent := none }
        (RAGOutcome.err "network") 5 editorInit = (editorInit, [], false))
    ∧ ((processRAGContent { segments := [], ragContent := some "hello" }
          (RAGOutcome.err "network") 5 editorInit).1.editedSegments =
            editorInit.editedSegments
       ∧ (processRAGContent { segments := [], ragContent := some "hello" }
            (RAGOutcome.err "network") 5 editorInit).2.1 =
              [EditorEvent.ragStart, EditorEvent.ragError "network"]
       ∧ (processRAGContent { segments := [], ragContent := some "hello" }
            (RAGOutcome.err "network") 5 editorInit).2.2 = true) :=
  ⟨(segmentation_failure_atomic { segments := [], ragContent := none } editorInit
      (RAGOutcome.err "network") "network" 5).1 (by decide),
   (segmentation_failure_atomic { segments := [], ragContent := some "hello" } editorInit
      (RAGOutcome.err "network") "network" 5).2 (by decide) (by decide)⟩

/-- C9: feeding the statuses pending, uploading, processing_ocr, cleaning,
processing_rag, completed (each with no explicit progress field) yields a
non-decreasing derived progress percentage at every step, ending at 100. -/
theorem progress_monotonic_happy_path :
    List.Chain' (fun a b => a ≤ b)
      (happyStatuses.map (fun st => displayProgress (some { status := st, progress := none })))
    ∧ (happyStatuses.map
        (fun st => displayProgress (some { status := st, progress := none }))).getLast? =
        some 100 := by
  have h : happyStatuses.map
      (fun st => displayProgress (some { status := st, progress := none })) =
      [0, 20, 40, 60, 80, 100] := by decide
  rw [h]
  refine ⟨?_, rfl⟩
  simp [List.chain'_cons]

/-- C10: a payload with status `"processing"` and no progress field maps
to the `processing_ocr` step via the alias table, but the static progress
table is keyed on the raw status string, which has no `"processing"`
entry, so the derived percentage falls back to 0, not 40. -/
theorem processing_alias_progress_zero :
    currentStep (some { status := "processing", progress := none }) = "processing_ocr"
    ∧ displayProgress (some { status := "processing", progress := none }) = 0
    ∧ displayProgress (some { status := "processing", progress := none }) ≠
        (statusProgress "processing_ocr").getD 0 := by
  decide

end DocSystem
